import Mathlib

/-!
Shallow embedding of the CampusTrade marketplace backend
(models.py, utils/auth_utils.py and the resource handlers) together with
theorems settling the specification claims about it.

Conventions of the embedding:
* MongoDB ObjectIds are modelled as natural numbers.
* Timestamps (`datetime.utcnow()`, JWT `exp`/`iat`) are modelled as natural
  numbers (seconds).
* Python floats that hold listing prices and averages are modelled as `ℚ`.
* A handler that mutates the database is a function `Store → ... → Store × Result`;
  the source only calls `save()` on its success path, so the error branches
  return the store unchanged.
* Flask request JSON bodies are modelled as structures of `Option` fields
  (a `none` field is a key absent from the body).
-/

namespace CampusTrade

/-- User document, from `models.py` `class User`.  The declared fields are
`name`, `email`, `role`, `verified`, `created_at` (plus the generated id).
Note that the model declares **no** password field. -/
structure UserDoc where
  uid : Nat
  name : String
  email : String
  role : String
  verified : Bool
  created_at : Nat
deriving Repr, DecidableEq

/-- Listing document, from `models.py` `class Listing`. -/
structure ListingDoc where
  lid : Nat
  seller_id : Nat
  title : String
  description : String
  price : ℚ
  category : String
  condition : String
  status : String
  created_at : Nat
  updated_at : Nat
deriving Repr, DecidableEq

/-- Review document, from `models.py` `class Review`. -/
structure ReviewDoc where
  rid : Nat
  listing_id : Nat
  reviewer_id : Nat
  reviewee_id : Nat
  rating : Int
  comment : String
  helpful_count : Int
  created_at : Nat
  updated_at : Nat
  is_flagged : Bool
  moderation_status : String
deriving Repr, DecidableEq

/-- Chat thread document, from `models.py` `class ChatThread`. -/
structure ThreadDoc where
  tid : Nat
  listing_id : Nat
  buyer_id : Nat
  seller_id : Nat
  created_at : Nat
  last_activity_time : Nat
deriving Repr, DecidableEq

/-- The MongoDB database: one collection per document class.
Lists are kept in insertion (natural) order, which is the order
`QuerySet.first()` consults. -/
structure Store where
  users : List UserDoc
  listings : List ListingDoc
  reviews : List ReviewDoc
  threads : List ThreadDoc
deriving Repr, DecidableEq

/-! ### utils/auth_utils.py -/

/-- Constant `SECRET_KEY` from `auth_utils.py`. -/
def SECRET_KEY : String := "campustrade-secret-key-2024"

/-- Constant `TOKEN_EXPIRATION_HOURS` from `auth_utils.py`. -/
def TOKEN_EXPIRATION_HOURS : Nat := 24

/-- The JWT claims dictionary built by `generate_token`. -/
structure TokenPayload where
  user_id : Nat
  exp : Nat
  iat : Nat
deriving Repr, DecidableEq

/-- A JWT: payload plus HMAC-SHA256 signature.  The MAC is modelled
abstractly as the (secret, payload) pair, which captures exactly the
tamper-evidence property: a signature verifies iff it was produced over the
same payload with the same secret. -/
structure Token where
  payload : TokenPayload
  sig : String × TokenPayload
deriving Repr, DecidableEq

/-- Model of HMAC-SHA256 signing used by PyJWT's HS256 algorithm. -/
def hs256 (secret : String) (p : TokenPayload) : String × TokenPayload :=
  (secret, p)

/-- Function `generate_token` from `auth_utils.py`: payload carries the user id, an
`exp` 24 hours after now, an `iat` of now, signed with `SECRET_KEY`. -/
def generate_token (user_id : Nat) (now : Nat) : Token :=
  let payload : TokenPayload :=
    { user_id := user_id, exp := now + TOKEN_EXPIRATION_HOURS * 3600, iat := now }
  { payload := payload, sig := hs256 SECRET_KEY payload }

/-- Function `decode_token` from `auth_utils.py`.  PyJWT's `jwt.decode` first checks
the signature (`InvalidTokenError` on mismatch, caught returning `None`) and
then the registered `exp` claim (`ExpiredSignatureError` when `exp < now`,
caught returning `None`). -/
def decode_token (t : Token) (now : Nat) : Option TokenPayload :=
  if t.sig ≠ hs256 SECRET_KEY t.payload then none
  else if t.payload.exp < now then none
  else some t.payload

/-- A (status code, error message) pair as returned by the decorators. -/
abbrev ApiError := Nat × String

/-- Decorator `require_auth` from `auth_utils.py`: the caller resolved from the
Authorization header (or `none`) must exist, else 401. -/
def require_auth (user : Option UserDoc) : Except ApiError UserDoc :=
  match user with
  | none => .error (401, "Authentication required")
  | some u => .ok u

/-- Decorator `require_role` from `auth_utils.py`, transcribing the nested
conditionals verbatim:

Python:
  if user.role not in allowed_roles and 'Both' not in allowed_roles:
      if user.role != 'Both':
          return 403
-/
def require_role (allowed_roles : List String) (user : Option UserDoc) :
    Except ApiError UserDoc :=
  match user with
  | none => .error (401, "Authentication required")
  | some u =>
    if u.role ∉ allowed_roles ∧ "Both" ∉ allowed_roles then
      if u.role ≠ "Both" then .error (403, "Insufficient permissions")
      else .ok u
    else .ok u

/-- Function `hash_password` from `auth_utils.py`: bcrypt with a fresh salt.  Modelled
as an injective tagged encoding of (salt, password); what the claims need is
that the output is a salted digest distinct from the plaintext, which the
`"$2b$12$"` prefix guarantees (bcrypt hashes always carry it, and no prefix
of the plaintext is consumed verbatim). -/
def hash_password (password : String) (salt : Nat) : String :=
  "$2b$12$" ++ toString salt ++ "$" ++ toString password.length ++ "$" ++ password

/-- Function `is_owner` from `auth_utils.py`. -/
def is_owner (user : UserDoc) (listing : ListingDoc) : Bool :=
  listing.seller_id == user.uid

/-- Function `is_thread_participant` from `auth_utils.py`. -/
def is_thread_participant (user : UserDoc) (thread : ThreadDoc) : Bool :=
  user.uid == thread.buyer_id || user.uid == thread.seller_id

/-! ### mongoengine document construction

`models.py` documents are plain `Document` subclasses (not
`DynamicDocument`, and `meta` only sets the collection), so mongoengine's
strict mode applies: passing the constructor a keyword argument that does
not name a declared field raises `FieldDoesNotExist`. -/

/-- A keyword-argument value handed to a mongoengine document constructor. -/
inductive FieldVal where
  | str : String → FieldVal
  | boolean : Bool → FieldVal
  | num : ℚ → FieldVal
deriving Repr, DecidableEq

/-- The field names declared on `models.py` `class User` (besides the id). -/
def userModelFields : List String :=
  ["name", "email", "role", "verified", "created_at"]

/-- mongoengine `Document.__init__` on a strict document: accepts the
keyword arguments iff every one names a declared field, otherwise raises
`FieldDoesNotExist`. -/
def constructDocument (modelFields : List String)
    (kwargs : List (String × FieldVal)) :
    Except String (List (String × FieldVal)) :=
  if kwargs.all (fun kv => modelFields.contains kv.1) then .ok kwargs
  else .error "FieldDoesNotExist"

/-! ### resources/user_resource.py -/

/-- Request body for POST /users (`UserListResource.post`). -/
structure RegPayload where
  name : Option String
  email : Option String
  password : Option String
  role : Option String
  verified : Option Bool
deriving Repr, DecidableEq

/-- The keyword arguments `UserListResource.post` hands to the `User`
constructor: `User(name=..., email=..., password=hashed_password,
role=..., verified=data.get('verified', False))`. -/
def registrationKwargs (name email hashed role : String) (verified : Bool) :
    List (String × FieldVal) :=
  [("name", FieldVal.str name), ("email", FieldVal.str email),
   ("password", FieldVal.str hashed), ("role", FieldVal.str role),
   ("verified", FieldVal.boolean verified)]

/-- Outcome of POST /users. -/
inductive CreateUserResult where
  | created : UserDoc → CreateUserResult
  | err : Nat → String → CreateUserResult
deriving Repr, DecidableEq

/-- Handler `UserListResource.post`: required-field check, role enum check, unique
email check, password hashing, then `User(...)` construction and `save()`.
The generic `except Exception` handler turns any raised error into a 400
whose body is the exception message. -/
def create_user (store : Store) (data : RegPayload) (salt now newId : Nat) :
    Store × CreateUserResult :=
  match data.name, data.email, data.password, data.role with
  | some name, some email, some password, some role =>
    if role ∉ ["Buyer", "Seller", "Both"] then
      (store, .err 400 "Invalid role. Must be Buyer, Seller, or Both")
    else if store.users.any (fun u => u.email == email) then
      (store, .err 400 "Email already registered")
    else
      let hashed := hash_password password salt
      match constructDocument userModelFields
          (registrationKwargs name email hashed role (data.verified.getD false)) with
      | .error e => (store, .err 400 e)
      | .ok _ =>
        let user : UserDoc :=
          { uid := newId, name := name, email := email, role := role,
            verified := data.verified.getD false, created_at := now }
        ({ store with users := store.users ++ [user] }, .created user)
  | _, _, _, _ => (store, .err 400 "Missing required field")

/-! ### query-string parsing and Mongo query primitives -/

/-- Digit-string to number (helper for `pyInt?`). -/
def digitsToNat? (cs : List Char) : Option Nat :=
  if cs.isEmpty then none
  else if cs.all Char.isDigit then
    some (cs.foldl (fun acc c => 10 * acc + (c.toNat - 48)) 0)
  else none

/-- Python `int(s)` on a string: optional surrounding whitespace, optional
sign, then decimal digits; anything else raises `ValueError` (modelled as
`none`).  (Digit-group underscores are not modelled.) -/
def pyInt? (s : String) : Option Int :=
  match ((s.data.dropWhile Char.isWhitespace).reverse.dropWhile
      Char.isWhitespace).reverse with
  | [] => none
  | c :: rest =>
    if c = '-' then (digitsToNat? rest).map (fun n => -(n : Int))
    else if c = '+' then (digitsToNat? rest).map (fun n => (n : Int))
    else (digitsToNat? (c :: rest)).map (fun n => (n : Int))

/-- Model of `int(request.args.get(key, default))`: an absent parameter falls back to
the integer default, a present one goes through Python `int`. -/
def getIntArg (arg : Option String) (deflt : Int) : Option Int :=
  match arg with
  | none => some deflt
  | some s => pyInt? s

/-- Python `//` floor division; `none` models `ZeroDivisionError`. -/
def floorDiv (a b : Int) : Option Int :=
  if b = 0 then none else some (Int.fdiv a b)

/-- Mongo cursor `.skip(skip).limit(limit)` on the ordered result list:
pymongo raises `ValueError` on a negative skip (modelled `none`),
`limit(0)` means no limit, and a negative limit acts as its absolute
value. -/
def mongoSkipLimit {α : Type} (l : List α) (skip limit : Int) :
    Option (List α) :=
  if skip < 0 then none
  else if limit = 0 then some (l.drop skip.toNat)
  else some ((l.drop skip.toNat).take limit.natAbs)

/-- Query parameters used by the list endpoints. -/
structure QueryArgs where
  page : Option String
  per_page : Option String
  category : Option String
  sort_by : Option String
deriving Repr, DecidableEq

/-! ### resources/listing_resource.py -/

/-- The category part of the query `ListingListResource.get` builds:
`category = request.args.get('category'); if category: query['category'] = category`
(Python truthiness: an empty string does not add the filter). -/
def categoryFilter (category : Option String) (l : ListingDoc) : Bool :=
  match category with
  | some c => if c = "" then true else l.category == c
  | none => true

/-- The filter `ListingListResource.get` queries with:
status Published, plus the optional category filter. -/
def listingsQuery (store : Store) (category : Option String) : List ListingDoc :=
  store.listings.filter
    (fun l => l.status == "Published" && categoryFilter category l)

/-- Mongo `order_by('price')` comparison. -/
def priceLe (a b : ListingDoc) : Prop := a.price ≤ b.price

instance : DecidableRel priceLe := fun a b => inferInstanceAs (Decidable (a.price ≤ b.price))

/-- Mongo `order_by('-created_at')` comparison (descending). -/
def createdDesc (a b : ListingDoc) : Prop := b.created_at ≤ a.created_at

instance : DecidableRel createdDesc := fun a b => inferInstanceAs (Decidable (b.created_at ≤ a.created_at))

/-- Successful response of GET /listings (the dict literal in the source has
keys `listings`, `page`, `per_page`, `total`, `total_pages`). -/
structure ListingsResponse where
  listings : List ListingDoc
  page : Int
  per_page : Int
  total : Nat
  total_pages : Int
deriving Repr, DecidableEq

/-- Keys of the response dict of `ListingListResource.get`. -/
def listingsListResponseKeys : List String :=
  ["listings", "page", "per_page", "total", "total_pages"]

/-- Outcome of GET /listings. -/
inductive ListingsGetResult where
  | ok : ListingsResponse → ListingsGetResult
  | err : Nat → String → ListingsGetResult
deriving Repr, DecidableEq

/-- The ordered result set of `ListingListResource.get`:
`sort_field = 'price' if sort_by == 'price' else '-created_at'` applied to
the filtered query (`sort_by` defaults to `'created_at'`). -/
def sortedListings (store : Store) (args : QueryArgs) : List ListingDoc :=
  if args.sort_by.getD "created_at" = "price" then
    (listingsQuery store args.category).insertionSort priceLe
  else
    (listingsQuery store args.category).insertionSort createdDesc

/-- Handler `ListingListResource.get`: parse `page`/`per_page` (defaults 1/10, a
non-numeric value raises `ValueError`, caught as 400), query Published
listings with the optional category filter, order by price ascending when
`sort_by == 'price'` else by created_at descending, skip `(page-1)*per_page`
and limit `per_page`, and report `total` and
`total_pages = (total + per_page - 1) // per_page`. -/
def listings_get (store : Store) (args : QueryArgs) : ListingsGetResult :=
  match getIntArg args.page 1 with
  | none => .err 400 "invalid literal for int() with base 10"
  | some page =>
  match getIntArg args.per_page 10 with
  | none => .err 400 "invalid literal for int() with base 10"
  | some per_page =>
    let query := listingsQuery store args.category
    let skip := (page - 1) * per_page
    let sorted := sortedListings store args
    match mongoSkipLimit sorted skip per_page with
    | none => .err 400 "skip must be an instance of int"
    | some items =>
      let total := query.length
      match floorDiv ((total : Int) + per_page - 1) per_page with
      | none => .err 400 "integer division or modulo by zero"
      | some tp =>
        .ok { listings := items, page := page, per_page := per_page,
              total := total, total_pages := tp }

/-- Request body for POST /listings (`ListingListResource.post`).  `price`
arrives as a JSON number put through `float(...)`. -/
structure ListingPayload where
  title : Option String
  description : Option String
  price : Option ℚ
  category : Option String
  condition : Option String
  status : Option String
deriving Repr, DecidableEq

/-- Outcome of POST /listings. -/
inductive CreateListingResult where
  | created : ListingDoc → CreateListingResult
  | err : Nat → String → CreateListingResult
deriving Repr, DecidableEq

/-- Handler `ListingListResource.post`: gated by `require_role(['Seller', 'Both'])`;
checks required fields `title`, `price`, `category`, `condition`; re-checks
that the resolved user's role is Seller or Both (403 otherwise); then
constructs and saves the listing with status defaulting to Draft. -/
def create_listing (store : Store) (caller : Option UserDoc)
    (data : ListingPayload) (now newId : Nat) : Store × CreateListingResult :=
  match require_role ["Seller", "Both"] caller with
  | .error (code, msg) => (store, .err code msg)
  | .ok seller =>
    match data.title, data.price, data.category, data.condition with
    | some title, some price, some category, some condition =>
      if seller.role ∉ ["Seller", "Both"] then
        (store, .err 403 "User is not authorized to sell")
      else
        let listing : ListingDoc :=
          { lid := newId, seller_id := seller.uid, title := title,
            description := data.description.getD "", price := price,
            category := category, condition := condition,
            status := data.status.getD "Draft",
            created_at := now, updated_at := now }
        ({ store with listings := store.listings ++ [listing] },
         .created listing)
    | _, _, _, _ => (store, .err 400 "Missing required field")

/-! ### resources/review_resource.py -/

/-- Mongo `order_by('-created_at')` on reviews (descending). -/
def reviewCreatedDesc (a b : ReviewDoc) : Prop := b.created_at ≤ a.created_at

instance : DecidableRel reviewCreatedDesc :=
  fun a b => inferInstanceAs (Decidable (b.created_at ≤ a.created_at))

/-- Successful response of GET /reviews. -/
structure ReviewsResponse where
  reviews : List ReviewDoc
  page : Int
  per_page : Int
  total : Nat
  total_pages : Int
deriving Repr, DecidableEq

/-- Keys of the response dict of `ReviewListResource.get`. -/
def reviewsListResponseKeys : List String :=
  ["reviews", "page", "per_page", "total", "total_pages"]

/-- Outcome of GET /reviews. -/
inductive ReviewsGetResult where
  | ok : ReviewsResponse → ReviewsGetResult
  | err : Nat → String → ReviewsGetResult
deriving Repr, DecidableEq

/-- Handler `ReviewListResource.get`: all reviews (no filter), ordered by created_at
descending, with the same pagination arithmetic as the listing list. -/
def reviews_get (store : Store) (args : QueryArgs) : ReviewsGetResult :=
  match getIntArg args.page 1 with
  | none => .err 400 "invalid literal for int() with base 10"
  | some page =>
  match getIntArg args.per_page 10 with
  | none => .err 400 "invalid literal for int() with base 10"
  | some per_page =>
    let skip := (page - 1) * per_page
    let sorted := store.reviews.insertionSort reviewCreatedDesc
    match mongoSkipLimit sorted skip per_page with
    | none => .err 400 "skip must be an instance of int"
    | some items =>
      let total := store.reviews.length
      match floorDiv ((total : Int) + per_page - 1) per_page with
      | none => .err 400 "integer division or modulo by zero"
      | some tp =>
        .ok { reviews := items, page := page, per_page := per_page,
              total := total, total_pages := tp }

/-- Request body for POST /reviews.  `rating` arrives through `int(...)`. -/
structure ReviewPayload where
  listing_id : Option Nat
  reviewee_id : Option Nat
  rating : Option Int
  comment : Option String
deriving Repr, DecidableEq

/-- Outcome of POST /reviews. -/
inductive CreateReviewResult where
  | created : ReviewDoc → CreateReviewResult
  | err : Nat → String → CreateReviewResult
deriving Repr, DecidableEq

/-- Handler `ReviewListResource.post`: requires auth; requires `listing_id`,
`reviewee_id`, `rating`; 404 if the listing or reviewee is absent; rating
must lie in [1,5]; rejects a duplicate (listing, reviewer) pair; otherwise
saves a new review with defaults `helpful_count=0`, `is_flagged=False`,
`moderation_status='Pending'`. -/
def create_review (store : Store) (caller : Option UserDoc)
    (data : ReviewPayload) (now newId : Nat) : Store × CreateReviewResult :=
  match require_auth caller with
  | .error (code, msg) => (store, .err code msg)
  | .ok reviewer =>
  match data.listing_id, data.reviewee_id, data.rating with
  | some lid, some reviewee_id, some rating =>
    match store.listings.find? (fun l => l.lid == lid) with
    | none => (store, .err 404 "Listing or User not found")
    | some listing =>
    match store.users.find? (fun u => u.uid == reviewee_id) with
    | none => (store, .err 404 "Listing or User not found")
    | some reviewee =>
      if rating < 1 ∨ rating > 5 then
        (store, .err 400 "Rating must be between 1 and 5")
      else
        match store.reviews.find?
            (fun r => r.listing_id == listing.lid && r.reviewer_id == reviewer.uid) with
        | some _ => (store, .err 400 "You have already reviewed this listing")
        | none =>
          let review : ReviewDoc :=
            { rid := newId, listing_id := listing.lid,
              reviewer_id := reviewer.uid, reviewee_id := reviewee.uid,
              rating := rating, comment := data.comment.getD "",
              helpful_count := 0, created_at := now, updated_at := now,
              is_flagged := false, moderation_status := "Pending" }
          ({ store with reviews := store.reviews ++ [review] }, .created review)
  | _, _, _ => (store, .err 400 "Missing required field")

/-- Outcome of DELETE /reviews/{id}. -/
inductive DeleteReviewResult where
  | ok : String → DeleteReviewResult
  | err : Nat → String → DeleteReviewResult
deriving Repr, DecidableEq

/-- Handler `ReviewResource.delete`: requires auth; 404 when the review is absent;
otherwise a soft delete: sets `moderation_status='Rejected'`,
`is_flagged=True`, stamps `updated_at`, and saves the same document —
nothing is removed from the collection. -/
def review_delete (store : Store) (caller : Option UserDoc)
    (review_id now : Nat) : Store × DeleteReviewResult :=
  match require_auth caller with
  | .error (code, msg) => (store, .err code msg)
  | .ok _ =>
    match store.reviews.find? (fun r => r.rid == review_id) with
    | none => (store, .err 404 "Review not found")
    | some _ =>
      let updated := store.reviews.map (fun r =>
        if r.rid == review_id then
          { r with moderation_status := "Rejected", is_flagged := true,
                   updated_at := now }
        else r)
      ({ store with reviews := updated }, .ok "Review deleted successfully")

/-- Outcome of GET /listings/{id}/reviews. -/
inductive ListingReviewsResult where
  | ok : List ReviewDoc → ListingReviewsResult
  | err : Nat → String → ListingReviewsResult
deriving Repr, DecidableEq

/-- Handler `ListingReviewListResource.get`: 404 when the listing is absent, else
the listing's reviews with `moderation_status='Approved'` only, ordered by
created_at descending. -/
def listing_reviews_get (store : Store) (listing_id : Nat) :
    ListingReviewsResult :=
  match store.listings.find? (fun l => l.lid == listing_id) with
  | none => .err 404 "Listing not found"
  | some listing =>
    .ok ((store.reviews.filter (fun r =>
        r.listing_id == listing.lid && r.moderation_status == "Approved")).insertionSort
        reviewCreatedDesc)

/-- Floor of a rational, computed as the floor division of numerator by
denominator (kernel-reducible, unlike the `FloorRing` projection). -/
def ratFloor (q : ℚ) : Int := Int.fdiv q.num (q.den : Int)

/-- Python `round` at a rational: round-half-to-even (banker's rounding).
The fractional remainder r = q - floor(q) equals m / den with
m = num - floor(q) * den, so r < 1/2 iff 2m < den and r > 1/2 iff 2m > den;
the comparisons are carried out on integers to stay kernel-reducible.
(The source computes on floats; the embedding idealises to exact rational
arithmetic.) -/
def pyRound (q : ℚ) : Int :=
  let f := ratFloor q
  let m := q.num - f * (q.den : Int)
  if 2 * m < (q.den : Int) then f
  else if (q.den : Int) < 2 * m then f + 1
  else if f % 2 = 0 then f else f + 1

/-- Python `round(x, 2)`. -/
def round2 (q : ℚ) : ℚ := ((pyRound (q * 100) : ℚ)) / 100

/-- Successful response of GET /users/{id}/reviews. -/
structure UserReviewsResponse where
  reviews : List ReviewDoc
  total_reviews : Nat
  average_rating : ℚ
deriving Repr, DecidableEq

/-- Outcome of GET /users/{id}/reviews. -/
inductive UserReviewsResult where
  | ok : UserReviewsResponse → UserReviewsResult
  | err : Nat → String → UserReviewsResult
deriving Repr, DecidableEq

/-- Handler `UserReviewListResource.get`: 404 when the user is absent; otherwise the
user's Approved reviews ordered by created_at descending, with
`total_reviews = len(reviews)` and `average_rating = round(sum(ratings) /
len(reviews), 2)` (`0` when there are none). -/
def user_reviews_get (store : Store) (user_id : Nat) : UserReviewsResult :=
  match store.users.find? (fun u => u.uid == user_id) with
  | none => .err 404 "User not found"
  | some user =>
    let reviews := (store.reviews.filter (fun r =>
        r.reviewee_id == user.uid && r.moderation_status == "Approved")).insertionSort
        reviewCreatedDesc
    let total_rating : Int := (reviews.map (fun r => r.rating)).sum
    let avg_rating : ℚ :=
      if reviews.length > 0 then (total_rating : ℚ) / (reviews.length : ℚ) else 0
    .ok { reviews := reviews, total_reviews := reviews.length,
          average_rating := round2 avg_rating }

/-! ### resources/thread_resource.py -/

/-- Outcome of POST /listings/{id}/threads.  A duplicate (listing, buyer)
pair yields a 400 whose body also carries the already-existing thread
(`return ..., 'thread': existing_thread.to_dict(), 400`). -/
inductive CreateThreadResult where
  | created : ThreadDoc → CreateThreadResult
  | dup : Nat → String → ThreadDoc → CreateThreadResult
  | err : Nat → String → CreateThreadResult
deriving Repr, DecidableEq

/-- Handler `ThreadListResource.post`: gated by `require_role(['Buyer', 'Both'])`;
404 when the listing is absent; rejects a duplicate (listing, buyer) pair,
returning the existing thread in the error body; otherwise saves a new
thread with the caller as buyer and the listing's seller as seller. -/
def create_thread (store : Store) (caller : Option UserDoc)
    (listing_id now newId : Nat) : Store × CreateThreadResult :=
  match require_role ["Buyer", "Both"] caller with
  | .error (code, msg) => (store, .err code msg)
  | .ok buyer =>
    match store.listings.find? (fun l => l.lid == listing_id) with
    | none => (store, .err 404 "Listing not found")
    | some listing =>
      match store.threads.find?
          (fun t => t.listing_id == listing.lid && t.buyer_id == buyer.uid) with
      | some existing => (store, .dup 400 "Thread already exists" existing)
      | none =>
        let thread : ThreadDoc :=
          { tid := newId, listing_id := listing.lid, buyer_id := buyer.uid,
            seller_id := listing.seller_id, created_at := now,
            last_activity_time := now }
        ({ store with threads := store.threads ++ [thread] }, .created thread)

/-- Mongo `order_by('-last_activity_time')` on threads (descending). -/
def activityDesc (a b : ThreadDoc) : Prop :=
  b.last_activity_time ≤ a.last_activity_time

instance : DecidableRel activityDesc :=
  fun a b => inferInstanceAs (Decidable (b.last_activity_time ≤ a.last_activity_time))

/-- Successful response of GET /threads.  The dict literal in
`StandaloneThreadListResource.get` has keys `threads`, `page`, `per_page`,
`total` — and no `total_pages`. -/
structure ThreadsResponse where
  threads : List ThreadDoc
  page : Int
  per_page : Int
  total : Nat
deriving Repr, DecidableEq

/-- Keys of the response dict of `StandaloneThreadListResource.get`. -/
def threadsListResponseKeys : List String :=
  ["threads", "page", "per_page", "total"]

/-- Outcome of GET /threads. -/
inductive ThreadsGetResult where
  | ok : ThreadsResponse → ThreadsGetResult
  | err : Nat → String → ThreadsGetResult
deriving Repr, DecidableEq

/-- The query of `StandaloneThreadListResource.get`: threads where the user
is buyer or seller. -/
def userThreads (store : Store) (user : UserDoc) : List ThreadDoc :=
  store.threads.filter
    (fun t => t.buyer_id == user.uid || t.seller_id == user.uid)

/-- Handler `StandaloneThreadListResource.get`: requires auth; threads where the
caller is buyer or seller, ordered by last_activity_time descending, with
skip/limit pagination; reports `total` (but computes no total_pages). -/
def threads_get (store : Store) (caller : Option UserDoc) (args : QueryArgs) :
    ThreadsGetResult :=
  match require_auth caller with
  | .error (code, msg) => .err code msg
  | .ok user =>
  match getIntArg args.page 1 with
  | none => .err 400 "invalid literal for int() with base 10"
  | some page =>
  match getIntArg args.per_page 10 with
  | none => .err 400 "invalid literal for int() with base 10"
  | some per_page =>
    let query := userThreads store user
    let skip := (page - 1) * per_page
    let sorted := query.insertionSort activityDesc
    match mongoSkipLimit sorted skip per_page with
    | none => .err 400 "skip must be an instance of int"
    | some items =>
      .ok { threads := items, page := page, per_page := per_page,
            total := query.length }

/-! ### Shared helper lemmas -/

instance : IsTotal ListingDoc priceLe :=
  ⟨fun a b => le_total a.price b.price⟩

instance : IsTrans ListingDoc priceLe :=
  ⟨fun _ _ _ h1 h2 => le_trans h1 h2⟩

instance : IsTotal ListingDoc createdDesc :=
  ⟨fun a b => (le_total b.created_at a.created_at).symm.imp id id |>.symm⟩

instance : IsTrans ListingDoc createdDesc :=
  ⟨fun _ _ _ h1 h2 => le_trans h2 h1⟩

instance : IsTotal ReviewDoc reviewCreatedDesc :=
  ⟨fun a b => le_total b.created_at a.created_at⟩

instance : IsTrans ReviewDoc reviewCreatedDesc :=
  ⟨fun _ _ _ h1 h2 => le_trans h2 h1⟩

instance : IsTotal ThreadDoc activityDesc :=
  ⟨fun a b => le_total b.last_activity_time a.last_activity_time⟩

instance : IsTrans ThreadDoc activityDesc :=
  ⟨fun _ _ _ h1 h2 => le_trans h2 h1⟩

/-- Whatever `mongoSkipLimit` returns is a sublist of its input. -/
theorem mongoSkipLimit_sublist {α : Type} {l out : List α} {skip limit : Int}
    (h : mongoSkipLimit l skip limit = some out) : out.Sublist l := by
  unfold mongoSkipLimit at h
  split at h
  · simp at h
  · split at h
    · cases h
      exact List.drop_sublist _ _
    · cases h
      exact (List.take_sublist _ _).trans (List.drop_sublist _ _)

/-- With page ≥ 1 and per_page ≥ 1, the skip/limit window is exactly
drop-then-take. -/
theorem mongoSkipLimit_pos {α : Type} (l : List α) (page per_page : Int)
    (h1 : 1 ≤ page) (h2 : 1 ≤ per_page) :
    mongoSkipLimit l ((page - 1) * per_page) per_page =
      some ((l.drop ((page - 1) * per_page).toNat).take per_page.toNat) := by
  unfold mongoSkipLimit
  rw [if_neg (by push_neg; exact mul_nonneg (by omega) (by omega)),
    if_neg (by omega)]
  have : per_page.natAbs = per_page.toNat := by omega
  rw [this]

/-- The pagination arithmetic of the handlers,
`(total + per_page - 1) // per_page`, is the ceiling of
`total / per_page` when per_page ≥ 1. -/
theorem fdiv_pred_eq_ceil (t : Nat) (p : Int) (hp : 1 ≤ p) :
    Int.fdiv ((t : Int) + p - 1) p = ⌈(t : ℚ) / (p : ℚ)⌉ := by
  have hp0 : (0 : ℚ) < (p : ℚ) := by exact_mod_cast hp
  rw [Int.fdiv_eq_ediv _ (by omega)]
  have hd := Int.ediv_add_emod ((t : Int) + p - 1) p
  have hr0 : 0 ≤ ((t : Int) + p - 1) % p := Int.emod_nonneg _ (by omega)
  have hrp : ((t : Int) + p - 1) % p < p := Int.emod_lt_of_pos _ (by omega)
  set q := ((t : Int) + p - 1) / p with hq
  set r := ((t : Int) + p - 1) % p with hr
  have hd2 : (p : ℚ) * (q : ℚ) + (r : ℚ) = (t : ℚ) + (p : ℚ) - 1 := by
    exact_mod_cast hd
  symm
  rw [Int.ceil_eq_iff]
  constructor
  · rw [lt_div_iff₀ hp0]
    have hr0q : (0 : ℚ) ≤ (r : ℚ) := by exact_mod_cast hr0
    nlinarith [hd2]
  · rw [div_le_iff₀ hp0]
    have hrpq : (r : ℚ) ≤ (p : ℚ) - 1 := by
      have : r ≤ p - 1 := by omega
      exact_mod_cast this
    nlinarith [hd2]

/-- Inversion of a successful GET /listings: the returned page is a
skip/limit window over the ordered filtered query, and the reported totals
come from that query. -/
theorem listings_get_ok_inv (store : Store) (args : QueryArgs)
    (resp : ListingsResponse) (hok : listings_get store args = .ok resp) :
    ∃ page per_page,
      getIntArg args.page 1 = some page ∧
      getIntArg args.per_page 10 = some per_page ∧
      mongoSkipLimit (sortedListings store args) ((page - 1) * per_page)
        per_page = some resp.listings ∧
      resp.total = (listingsQuery store args.category).length ∧
      floorDiv ((resp.total : Int) + per_page - 1) per_page =
        some resp.total_pages ∧
      resp.page = page ∧ resp.per_page = per_page := by
  unfold listings_get at hok
  split at hok
  · exact absurd hok (by simp)
  next page hpage =>
    split at hok
    · exact absurd hok (by simp)
    next per_page hper =>
      dsimp only at hok
      split at hok
      · exact absurd hok (by simp)
      next items hitems =>
        split at hok
        · exact absurd hok (by simp)
        next tp htp =>
          obtain ⟨rfl⟩ := (ListingsGetResult.ok.injEq _ _).mp hok
          exact ⟨page, per_page, hpage, hper, hitems, rfl, htp, rfl, rfl⟩

/-- The ordered result set is a permutation of the filtered query, so has
the same members. -/
theorem mem_sortedListings (store : Store) (args : QueryArgs) (l : ListingDoc) :
    l ∈ sortedListings store args ↔ l ∈ listingsQuery store args.category := by
  unfold sortedListings
  split
  · exact (List.perm_insertionSort _ _).mem_iff
  · exact (List.perm_insertionSort _ _).mem_iff

/-- Rounding zero gives zero. -/
theorem round2_zero : round2 0 = 0 := by
  with_unfolding_all rfl

/-! ### Concrete fixtures used by witnesses and counterexamples -/

/-- A seller (role "Seller"). -/
def sellerSam : UserDoc :=
  { uid := 7, name := "Sam", email := "sam@campus.edu", role := "Seller",
    verified := false, created_at := 0 }

/-- A buyer (role "Buyer"). -/
def buyerBea : UserDoc :=
  { uid := 3, name := "Bea", email := "bea@campus.edu", role := "Buyer",
    verified := false, created_at := 0 }

/-- A published listing owned by user 2. -/
def listingBike : ListingDoc :=
  { lid := 1, seller_id := 2, title := "Bike", description := "",
    price := 50, category := "Other", condition := "Good",
    status := "Published", created_at := 0, updated_at := 0 }

/-- Store holding the seller and the listing. -/
def storeC1 : Store := { users := [sellerSam], listings := [listingBike],
                         reviews := [], threads := [] }

/-- The empty store. -/
def store0 : Store := { users := [], listings := [], reviews := [], threads := [] }

/-- A user with role "Both" (the reviewee/seller side of the fixtures). -/
def userOlie : UserDoc :=
  { uid := 2, name := "Olie", email := "olie@campus.edu", role := "Both",
    verified := false, created_at := 0 }

/-- The review already stored on the listing by user 3. -/
def reviewR0 : ReviewDoc :=
  { rid := 11, listing_id := 1, reviewer_id := 3, reviewee_id := 2,
    rating := 5, comment := "nice", helpful_count := 0, created_at := 1,
    updated_at := 1, is_flagged := false, moderation_status := "Approved" }

/-- The thread already stored on the listing by buyer 3. -/
def threadT0 : ThreadDoc :=
  { tid := 21, listing_id := 1, buyer_id := 3, seller_id := 2,
    created_at := 1, last_activity_time := 1 }

/-! ### Claim theorems -/

/-- C1.  The claim says an operation gated by `requireRole(allowedRoles)`
fails with 403 exactly when the caller's role is neither in `allowedRoles`
nor "Both", and in particular that POST /listings/1/threads (gated by
`requireRole(['Buyer','Both'])`) rejects a Seller with 403.  The code
instead tests `'Both' not in allowed_roles`: whenever "Both" is in the
allowed list the gate admits every authenticated caller.  Evaluated at the
failing input, the Seller passes the Buyer gate and successfully creates a
thread on the listing. -/
theorem c1_seller_passes_buyer_gate :
    require_role ["Buyer", "Both"] (some sellerSam) = .ok sellerSam ∧
    (create_thread storeC1 (some sellerSam) 1 5 99).2 =
      CreateThreadResult.created
        { tid := 99, listing_id := 1, buyer_id := 7, seller_id := 2,
          created_at := 5, last_activity_time := 5 } := by
  constructor
  · rfl
  · rfl

/-- C2.  The claim says a valid registration stores the user with a hashed
password.  In the code, `UserListResource.post` passes `password=` to the
`User` constructor but `models.py` declares no password field, so every
valid registration (all fields present, role in the enum, email fresh)
raises `FieldDoesNotExist`, is caught by the generic handler, returns 400
and stores nothing. -/
theorem c2_registration_always_fails (store : Store)
    (name email password role : String) (verified : Option Bool)
    (salt now newId : Nat)
    (hrole : role ∈ ["Buyer", "Seller", "Both"])
    (hfresh : ∀ u ∈ store.users, u.email ≠ email) :
    create_user store
      { name := some name, email := some email, password := some password,
        role := some role, verified := verified } salt now newId =
    (store, .err 400 "FieldDoesNotExist") := by
  have hany : store.users.any (fun u => u.email == email) = false := by
    simp only [List.any_eq_false, beq_iff_eq]
    exact hfresh
  simp [create_user, hrole, hany, constructDocument, registrationKwargs,
    userModelFields]

/-- Witness for C2 at a concrete valid registration on the empty store. -/
theorem c2_registration_always_fails_witness :
    create_user store0
      { name := some "Alice", email := some "alice@campus.edu",
        password := some "pw123", role := some "Buyer", verified := none }
      1 0 1 = (store0, .err 400 "FieldDoesNotExist") :=
  c2_registration_always_fails store0 "Alice" "alice@campus.edu" "pw123"
    "Buyer" none 1 0 1 (by decide) (by simp [store0])

/-- C8.  A token issued for user `uid` at `t_issue`, verified at any
`t_verify` before the 24-hour expiry, decodes to a payload whose user id is
`uid`; verified after the expiry has elapsed, it decodes to `none`. -/
theorem c8_token_expiry (uid t_issue t_verify : Nat) :
    (t_verify < t_issue + TOKEN_EXPIRATION_HOURS * 3600 →
      (decode_token (generate_token uid t_issue) t_verify).map
        TokenPayload.user_id = some uid) ∧
    (t_issue + TOKEN_EXPIRATION_HOURS * 3600 < t_verify →
      decode_token (generate_token uid t_issue) t_verify = none) := by
  constructor
  · intro h
    rw [decode_token, if_neg (by simp [generate_token]), if_neg (by simp [generate_token]; omega)]
    rfl
  · intro h
    rw [decode_token, if_neg (by simp [generate_token]), if_pos (by simp [generate_token]; omega)]

/-- Witness for C8: a token issued at time 100 for user 5 decodes to 5 at
time 200 and to invalid at time 86501. -/
theorem c8_token_expiry_witness :
    (decode_token (generate_token 5 100) 200).map TokenPayload.user_id =
      some 5 ∧
    decode_token (generate_token 5 100) 86501 = none :=
  ⟨(c8_token_expiry 5 100 200).1 (by decide),
   (c8_token_expiry 5 100 86501).2 (by decide)⟩

/-- C10 counterexample.  The claim says POST /users stores the optional
`verified` flag on the created user, letting an unauthenticated client
register an already-verified account.  At the concrete input — a fully
valid body carrying `verified=true` on the empty store — no user is created
at all: the `User` constructor rejects the undeclared `password` field and
the handler returns 400. -/
theorem c10_no_verified_account_created :
    create_user store0
      { name := some "Eve", email := some "eve@campus.edu",
        password := some "pw", role := some "Buyer", verified := some true }
      0 0 1 = (store0, .err 400 "FieldDoesNotExist") := by
  decide

/-- C10 amended.  The handler does read an optional boolean `verified`
field (defaulting to false) and passes it among the constructor keyword
arguments, but no POST /users request ever creates a user or changes the
user collection: the constructor always rejects the undeclared `password`
keyword first. -/
theorem c10_verified_read_but_never_stored (store : Store) (data : RegPayload)
    (salt now newId : Nat) (name email password role : String) :
    ("verified", FieldVal.boolean (data.verified.getD false)) ∈
      registrationKwargs name email password role (data.verified.getD false) ∧
    (create_user store data salt now newId).1 = store ∧
    (∀ u, (create_user store data salt now newId).2 ≠ .created u) := by
  refine ⟨by simp [registrationKwargs], ?_⟩
  unfold create_user
  cases data.name <;> cases data.email <;> cases data.password <;>
    cases data.role <;>
    simp only [constructDocument, registrationKwargs, userModelFields] <;>
    first
      | (split_ifs <;> simp_all)
      | simp

/-- C3 counterexample.  The claim says the Seller-or-Both requirement on
POST /listings is enforced twice, once by the role gate and once by the
in-handler re-check.  At the concrete input — an authenticated Buyer with a
fully valid body — the role gate `require_role(['Seller','Both'])` admits
the Buyer (because "Both" is in the allowed list the gate admits everyone),
and the 403 the Buyer receives comes solely from the in-handler re-check
with its distinct message. -/
theorem c3_gate_does_not_enforce :
    require_role ["Seller", "Both"] (some buyerBea) = .ok buyerBea ∧
    (create_listing store0 (some buyerBea)
      { title := some "Lamp", description := none, price := some 10,
        category := some "Other", condition := some "Good", status := none }
      0 1).2 = .err 403 "User is not authorized to sell" := by
  constructor
  · rfl
  · rfl

/-- C3 amended.  POST /listings creates a listing only if the caller's role
is Seller or Both, and an authenticated Buyer with all required fields
present is rejected with 403 — but the rejection is enforced only by the
in-handler re-check of the resolved user's role; the role gate admits any
authenticated caller because "Both" is in its allowed list. -/
theorem c3_create_requires_seller_or_both (store : Store) (u : UserDoc)
    (data : ListingPayload) (now newId : Nat) :
    require_role ["Seller", "Both"] (some u) = .ok u ∧
    (∀ l, (create_listing store (some u) data now newId).2 = .created l →
      u.role = "Seller" ∨ u.role = "Both") ∧
    (u.role = "Buyer" →
      data.title.isSome = true → data.price.isSome = true →
      data.category.isSome = true → data.condition.isSome = true →
      create_listing store (some u) data now newId =
        (store, .err 403 "User is not authorized to sell")) := by
  have hgate : require_role ["Seller", "Both"] (some u) = .ok u := by
    simp [require_role]
  refine ⟨hgate, ?_, ?_⟩
  · intro l hl
    unfold create_listing at hl
    rw [hgate] at hl
    cases htitle : data.title <;> rw [htitle] at hl <;>
      cases hprice : data.price <;> rw [hprice] at hl <;>
      cases hcat : data.category <;> rw [hcat] at hl <;>
      cases hcond : data.condition <;> rw [hcond] at hl <;>
      simp_all <;>
      split_ifs at hl <;> simp_all <;> tauto
  · intro hrole ht hp hc hd
    obtain ⟨title, htitle⟩ := Option.isSome_iff_exists.mp ht
    obtain ⟨price, hprice⟩ := Option.isSome_iff_exists.mp hp
    obtain ⟨category, hcat⟩ := Option.isSome_iff_exists.mp hc
    obtain ⟨condition, hcond⟩ := Option.isSome_iff_exists.mp hd
    unfold create_listing
    rw [hgate, htitle, hprice, hcat, hcond]
    dsimp only
    rw [if_pos (by simp [hrole])]

/-- Witness for C3's amended theorem: the concrete Buyer with a valid body
is rejected by the re-check while the gate admitted them. -/
theorem c3_create_requires_seller_or_both_witness :
    require_role ["Seller", "Both"] (some buyerBea) = .ok buyerBea ∧
    create_listing store0 (some buyerBea)
      { title := some "Desk", description := none, price := some 20,
        category := some "Furniture", condition := some "Fair", status := none }
      0 1 = (store0, .err 403 "User is not authorized to sell") := by
  obtain ⟨h1, _, h3⟩ := c3_create_requires_seller_or_both store0 buyerBea
    { title := some "Desk", description := none, price := some 20,
      category := some "Furniture", condition := some "Fair", status := none }
    0 1
  exact ⟨h1, h3 rfl rfl rfl rfl rfl⟩

/-- C5.  Every successful GET /listings response contains only Published
listings; with a (non-empty) category filter every returned listing has
that category; with sort_by=price the returned prices are non-decreasing
(`priceLe` pairwise); with the default sort the returned created_at values
are non-increasing (`createdDesc` pairwise). -/
theorem c5_listing_list_contract (store : Store) (args : QueryArgs)
    (resp : ListingsResponse) (hok : listings_get store args = .ok resp) :
    (∀ l ∈ resp.listings, l.status = "Published") ∧
    (∀ c, args.category = some c → c ≠ "" →
      ∀ l ∈ resp.listings, l.category = c) ∧
    (args.sort_by = some "price" → resp.listings.Pairwise priceLe) ∧
    (args.sort_by = none → resp.listings.Pairwise createdDesc) := by
  obtain ⟨page, per_page, _, _, hwin, _, _, _, _⟩ :=
    listings_get_ok_inv store args resp hok
  have hsub : resp.listings.Sublist (sortedListings store args) :=
    mongoSkipLimit_sublist hwin
  have hmem : ∀ l ∈ resp.listings, l ∈ listingsQuery store args.category :=
    fun l hl => (mem_sortedListings store args l).mp (hsub.subset hl)
  refine ⟨?_, ?_, ?_, ?_⟩
  · intro l hl
    have := hmem l hl
    unfold listingsQuery at this
    simp only [List.mem_filter, Bool.and_eq_true, beq_iff_eq] at this
    exact this.2.1
  · intro c hc hne l hl
    have := hmem l hl
    unfold listingsQuery categoryFilter at this
    rw [hc] at this
    simp only [List.mem_filter, Bool.and_eq_true, beq_iff_eq] at this
    have h2 := this.2.2
    rw [if_neg hne] at h2
    exact beq_iff_eq.mp h2
  · intro hsort
    have hs : sortedListings store args =
        (listingsQuery store args.category).insertionSort priceLe := by
      unfold sortedListings
      rw [hsort]
      simp
    have hsorted : (sortedListings store args).Pairwise priceLe := by
      rw [hs]
      exact List.sorted_insertionSort priceLe _
    exact hsorted.sublist hsub
  · intro hsort
    have hs : sortedListings store args =
        (listingsQuery store args.category).insertionSort createdDesc := by
      unfold sortedListings
      rw [hsort]
      simp
    have hsorted : (sortedListings store args).Pairwise createdDesc := by
      rw [hs]
      exact List.sorted_insertionSort createdDesc _
    exact hsorted.sublist hsub

/-- A draft listing (must never appear in the public list). -/
def listingDraft : ListingDoc :=
  { lid := 2, seller_id := 2, title := "Old chair", description := "",
    price := 5, category := "Furniture", condition := "Fair",
    status := "Draft", created_at := 4, updated_at := 4 }

/-- A second published listing, cheaper and newer than `listingBike`. -/
def listingLamp : ListingDoc :=
  { lid := 3, seller_id := 2, title := "Lamp", description := "",
    price := 8, category := "Other", condition := "Good",
    status := "Published", created_at := 9, updated_at := 9 }

/-- Store for the C5 witness: two published listings and a draft. -/
def storeC5 : Store :=
  { users := [sellerSam], listings := [listingBike, listingDraft, listingLamp],
    reviews := [], threads := [] }

/-- Witness for C5: on the concrete store the price-sorted page exists and
the theorem's conclusions apply to it (the draft listing is absent, prices
are non-decreasing). -/
theorem c5_listing_list_contract_witness :
    (∀ l ∈ (ListingsResponse.mk [listingLamp, listingBike] 1 10 2 1).listings,
      l.status = "Published") ∧
    (∀ c, (QueryArgs.mk none none none (some "price")).category = some c →
      c ≠ "" → ∀ l ∈ (ListingsResponse.mk [listingLamp, listingBike] 1 10 2 1).listings,
        l.category = c) ∧
    ((QueryArgs.mk none none none (some "price")).sort_by = some "price" →
      (ListingsResponse.mk [listingLamp, listingBike] 1 10 2 1).listings.Pairwise priceLe) ∧
    ((QueryArgs.mk none none none (some "price")).sort_by = none →
      (ListingsResponse.mk [listingLamp, listingBike] 1 10 2 1).listings.Pairwise createdDesc) :=
  c5_listing_list_contract storeC5 (QueryArgs.mk none none none (some "price"))
    (ListingsResponse.mk [listingLamp, listingBike] 1 10 2 1) (by decide)

/-- C4 counterexample.  The claim says every request whose page parameter
is missing fails with a validation error (400).  At the concrete input — a
GET /reviews with no query parameters at all on the empty store — the
handler instead succeeds with 200, defaulting page to 1 and per_page to
10. -/
theorem c4_missing_page_not_rejected :
    reviews_get store0 (QueryArgs.mk none none none none) =
      .ok (ReviewsResponse.mk [] 1 10 0 0) := by
  decide

/-- C4 amended.  When page and per_page parse as integers with page ≥ 1 and
per_page ≥ 1, each of the three list operations skips exactly
(page-1)*per_page items of its ordered matching set, returns at most
per_page items, and reports total as the count of all matches; the listing
and review lists also report total_pages = ceil(total/per_page), while the
standalone thread list's response carries no total_pages key; a page
parameter that is present but non-numeric fails each operation with 400,
and a missing page parameter does not fail: it defaults to 1. -/
theorem c4_pagination_contract (store : Store) (user : UserDoc)
    (args : QueryArgs) (page per_page : Int)
    (hpage : getIntArg args.page 1 = some page)
    (hper : getIntArg args.per_page 10 = some per_page)
    (h1 : 1 ≤ page) (h2 : 1 ≤ per_page) :
    (listings_get store args = .ok
      { listings := ((sortedListings store args).drop
            ((page - 1) * per_page).toNat).take per_page.toNat,
        page := page, per_page := per_page,
        total := (listingsQuery store args.category).length,
        total_pages :=
          ⌈((listingsQuery store args.category).length : ℚ) / (per_page : ℚ)⌉ } ∧
     (((sortedListings store args).drop
         ((page - 1) * per_page).toNat).take per_page.toNat).length ≤
       per_page.toNat) ∧
    (reviews_get store args = .ok
      { reviews := ((store.reviews.insertionSort reviewCreatedDesc).drop
            ((page - 1) * per_page).toNat).take per_page.toNat,
        page := page, per_page := per_page,
        total := store.reviews.length,
        total_pages := ⌈(store.reviews.length : ℚ) / (per_page : ℚ)⌉ } ∧
     (((store.reviews.insertionSort reviewCreatedDesc).drop
         ((page - 1) * per_page).toNat).take per_page.toNat).length ≤
       per_page.toNat) ∧
    (threads_get store (some user) args = .ok
      { threads := (((userThreads store user).insertionSort activityDesc).drop
            ((page - 1) * per_page).toNat).take per_page.toNat,
        page := page, per_page := per_page,
        total := (userThreads store user).length } ∧
     ((((userThreads store user).insertionSort activityDesc).drop
         ((page - 1) * per_page).toNat).take per_page.toNat).length ≤
       per_page.toNat) ∧
    ("total_pages" ∈ listingsListResponseKeys ∧
     "total_pages" ∈ reviewsListResponseKeys ∧
     "total_pages" ∉ threadsListResponseKeys) ∧
    (∀ s, pyInt? s = none →
      listings_get store { args with page := some s } =
        .err 400 "invalid literal for int() with base 10" ∧
      reviews_get store { args with page := some s } =
        .err 400 "invalid literal for int() with base 10" ∧
      threads_get store (some user) { args with page := some s } =
        .err 400 "invalid literal for int() with base 10") ∧
    getIntArg none 1 = some 1 := by
  have hlen : ∀ {α : Type} (l : List α) (n k : Nat),
      ((l.drop k).take n).length ≤ n := by
    intro α l n k
    rw [List.length_take]
    exact min_le_left _ _
  refine ⟨⟨?_, hlen _ _ _⟩, ⟨?_, hlen _ _ _⟩, ⟨?_, hlen _ _ _⟩,
    ⟨by decide, by decide, by decide⟩, ?_, rfl⟩
  · unfold listings_get
    rw [hpage, hper]
    dsimp only
    rw [mongoSkipLimit_pos _ _ _ h1 h2]
    dsimp only
    simp only [floorDiv]
    rw [if_neg (by omega)]
    dsimp only
    rw [fdiv_pred_eq_ceil _ _ h2]
  · unfold reviews_get
    rw [hpage, hper]
    dsimp only
    rw [mongoSkipLimit_pos _ _ _ h1 h2]
    dsimp only
    simp only [floorDiv]
    rw [if_neg (by omega)]
    dsimp only
    rw [fdiv_pred_eq_ceil _ _ h2]
  · unfold threads_get
    rw [show require_auth (some user) = .ok user from rfl]
    dsimp only
    rw [hpage, hper]
    dsimp only
    rw [mongoSkipLimit_pos _ _ _ h1 h2]
  · intro s hs
    have hg : getIntArg (some s) 1 = none := by simp [getIntArg, hs]
    refine ⟨?_, ?_, ?_⟩
    · unfold listings_get
      dsimp only
      rw [hg]
    · unfold reviews_get
      dsimp only
      rw [hg]
    · unfold threads_get
      rw [show require_auth (some user) = .ok user from rfl]
      dsimp only
      rw [hg]

/-- Store for the C4 witness: three reviews and three threads of the
seller. -/
def storeC4 : Store :=
  { users := [sellerSam], listings := [listingBike],
    reviews :=
      [{ reviewR0 with rid := 31, created_at := 1 },
       { reviewR0 with rid := 32, created_at := 2 },
       { reviewR0 with rid := 33, created_at := 3 }],
    threads :=
      [{ threadT0 with tid := 41, seller_id := 7, last_activity_time := 1 },
       { threadT0 with tid := 42, seller_id := 7, last_activity_time := 2 },
       { threadT0 with tid := 43, seller_id := 7, last_activity_time := 3 }] }

/-- Query arguments for the C4 witness: page 2, two items per page. -/
def argsC4 : QueryArgs := QueryArgs.mk (some "2") (some "2") none none

/-- Witness for C4's amended theorem: on three reviews with page=2,
per_page=2 the review list succeeds with total 3 and
total_pages = ceil(3/2), and the thread list response has no total_pages
key. -/
theorem c4_pagination_contract_witness :
    reviews_get storeC4 argsC4 = .ok
      { reviews := ((storeC4.reviews.insertionSort reviewCreatedDesc).drop
            (((2 : Int) - 1) * 2).toNat).take (2 : Int).toNat,
        page := 2, per_page := 2, total := storeC4.reviews.length,
        total_pages := ⌈(storeC4.reviews.length : ℚ) / ((2 : Int) : ℚ)⌉ } ∧
    "total_pages" ∉ threadsListResponseKeys := by
  have h := c4_pagination_contract storeC4 sellerSam argsC4 2 2
    (by decide) (by decide) (by decide) (by decide)
  exact ⟨h.2.1.1, h.2.2.2.1.2.2⟩

/-- C6.  Creating a second review for a (listing, reviewer) pair that
already has one fails with 400 and leaves the review collection unchanged,
and creating a second thread for a (listing, buyer) pair that already has
one fails with 400 whose body carries the existing thread, leaving the
thread collection unchanged. -/
theorem c6_duplicate_review_and_thread_rejected (store : Store)
    (reviewer buyer reviewee : UserDoc) (lid rvid lid2 : Nat) (rating : Int)
    (comment : Option String) (listing listing2 : ListingDoc)
    (r0 : ReviewDoc) (t0 : ThreadDoc) (now newId : Nat) :
    (store.listings.find? (fun l => l.lid == lid) = some listing →
     store.users.find? (fun u => u.uid == rvid) = some reviewee →
     1 ≤ rating → rating ≤ 5 →
     store.reviews.find? (fun r => r.listing_id == listing.lid &&
       r.reviewer_id == reviewer.uid) = some r0 →
     create_review store (some reviewer)
       { listing_id := some lid, reviewee_id := some rvid,
         rating := some rating, comment := comment } now newId =
       (store, .err 400 "You have already reviewed this listing")) ∧
    (store.listings.find? (fun l => l.lid == lid2) = some listing2 →
     store.threads.find? (fun t => t.listing_id == listing2.lid &&
       t.buyer_id == buyer.uid) = some t0 →
     create_thread store (some buyer) lid2 now newId =
       (store, .dup 400 "Thread already exists" t0)) := by
  constructor
  · intro hlisting hreviewee hr1 hr5 hdup
    unfold create_review
    rw [show require_auth (some reviewer) = .ok reviewer from rfl]
    simp only [hlisting, hreviewee]
    rw [if_neg (by omega), hdup]
  · intro hlisting hdup
    unfold create_thread
    rw [show require_role ["Buyer", "Both"] (some buyer) = .ok buyer from
      by simp [require_role]]
    simp only [hlisting, hdup]

/-- Store for the C6 witness: a listing, its seller, a reviewer, a buyer,
one review by the reviewer on the listing, one thread by the buyer on the
listing. -/
def storeC6 : Store :=
  { users := [sellerSam, buyerBea, userOlie], listings := [listingBike],
    reviews := [reviewR0], threads := [threadT0] }

/-- Witness for C6: the concrete duplicate review and duplicate thread are
both rejected with the store unchanged, the duplicate-thread body carrying
the existing thread. -/
theorem c6_duplicate_review_and_thread_rejected_witness :
    create_review storeC6 (some buyerBea)
      { listing_id := some 1, reviewee_id := some 2, rating := some 4,
        comment := none } 9 99 =
      (storeC6, .err 400 "You have already reviewed this listing") ∧
    create_thread storeC6 (some buyerBea) 1 9 99 =
      (storeC6, .dup 400 "Thread already exists" threadT0) := by
  obtain ⟨h1, h2⟩ := c6_duplicate_review_and_thread_rejected storeC6
    buyerBea buyerBea userOlie 1 2 1 4 none listingBike listingBike
    reviewR0 threadT0 9 99
  exact ⟨h1 rfl rfl (by decide) (by decide) rfl, h2 rfl rfl⟩

/-- C7.  DELETE /reviews/{id} on an existing review never removes anything:
the collection keeps its length, the targeted review is still stored with
moderation_status Rejected and is_flagged true, and it no longer appears in
the approved-only per-listing and per-user review listings of the updated
store. -/
theorem c7_review_soft_delete (store : Store) (caller : UserDoc)
    (review_id now : Nat) (r0 : ReviewDoc)
    (hfind : store.reviews.find? (fun r => r.rid == review_id) = some r0) :
    (review_delete store (some caller) review_id now).2 =
      .ok "Review deleted successfully" ∧
    (review_delete store (some caller) review_id now).1.reviews.length =
      store.reviews.length ∧
    (∀ r ∈ (review_delete store (some caller) review_id now).1.reviews,
      r.rid = review_id →
        r.moderation_status = "Rejected" ∧ r.is_flagged = true) ∧
    (∃ r ∈ (review_delete store (some caller) review_id now).1.reviews,
      r.rid = review_id) ∧
    (∀ lid out,
      listing_reviews_get (review_delete store (some caller) review_id now).1
        lid = .ok out → ∀ r ∈ out, r.rid ≠ review_id) ∧
    (∀ uid resp,
      user_reviews_get (review_delete store (some caller) review_id now).1
        uid = .ok resp → ∀ r ∈ resp.reviews, r.rid ≠ review_id) := by
  have hdel : review_delete store (some caller) review_id now =
      ({ store with reviews := store.reviews.map (fun r =>
          if r.rid == review_id then
            { r with moderation_status := "Rejected", is_flagged := true,
                     updated_at := now }
          else r) }, .ok "Review deleted successfully") := by
    unfold review_delete
    rw [show require_auth (some caller) = .ok caller from rfl]
    dsimp only
    rw [hfind]
  rw [hdel]
  dsimp only
  have key : ∀ r ∈ store.reviews.map (fun r =>
      if r.rid == review_id then
        { r with moderation_status := "Rejected", is_flagged := true,
                 updated_at := now }
      else r), r.rid = review_id →
        r.moderation_status = "Rejected" ∧ r.is_flagged = true := by
    intro r hr hrid
    obtain ⟨x, hx, rfl⟩ := List.mem_map.mp hr
    by_cases hxid : x.rid = review_id
    · simp [hxid]
    · rw [if_neg (by simp [hxid])] at hrid
      exact absurd hrid hxid
  refine ⟨rfl, by simp, key, ?_, ?_, ?_⟩
  · have hmem := List.mem_of_find?_eq_some hfind
    have hr0id : r0.rid = review_id := by
      have := List.find?_some hfind
      simpa using this
    refine ⟨_, List.mem_map_of_mem _ hmem, ?_⟩
    simp [hr0id]
  · intro lid out hok r hr
    intro hrid
    unfold listing_reviews_get at hok
    split at hok
    · exact absurd hok (by simp)
    next listing hlst =>
      obtain rfl := (ListingReviewsResult.ok.injEq _ _).mp hok
      have hrmem := (List.perm_insertionSort reviewCreatedDesc _).mem_iff.mp hr
      rw [List.mem_filter] at hrmem
      have happ : r.moderation_status = "Approved" := by
        have h2 := hrmem.2
        simp only [Bool.and_eq_true, beq_iff_eq] at h2
        exact h2.2
      have hrej := (key r hrmem.1 hrid).1
      rw [happ] at hrej
      exact absurd hrej (by decide)
  · intro uid resp hok r hr
    intro hrid
    unfold user_reviews_get at hok
    split at hok
    · exact absurd hok (by simp)
    next user huser =>
      dsimp only at hok
      obtain rfl := (UserReviewsResult.ok.injEq _ _).mp hok
      have hrmem := (List.perm_insertionSort reviewCreatedDesc _).mem_iff.mp hr
      rw [List.mem_filter] at hrmem
      have happ : r.moderation_status = "Approved" := by
        have h2 := hrmem.2
        simp only [Bool.and_eq_true, beq_iff_eq] at h2
        exact h2.2
      have hrej := (key r hrmem.1 hrid).1
      rw [happ] at hrej
      exact absurd hrej (by decide)

/-- Store for the C7 witness: one pending review on the listing. -/
def storeC7 : Store :=
  { users := [sellerSam, buyerBea, userOlie], listings := [listingBike],
    reviews := [{ reviewR0 with moderation_status := "Pending" }],
    threads := [] }

/-- Witness for C7: deleting the concrete review leaves it stored (same
collection length) with Rejected status and the flag set. -/
theorem c7_review_soft_delete_witness :
    (review_delete storeC7 (some sellerSam) 11 9).2 =
      .ok "Review deleted successfully" ∧
    (review_delete storeC7 (some sellerSam) 11 9).1.reviews.length =
      storeC7.reviews.length ∧
    (∃ r ∈ (review_delete storeC7 (some sellerSam) 11 9).1.reviews,
      r.rid = 11) := by
  obtain ⟨h1, h2, _, h4, _, _⟩ := c7_review_soft_delete storeC7 sellerSam 11 9
    { reviewR0 with moderation_status := "Pending" } rfl
  exact ⟨h1, h2, h4⟩

/-- C9.  A successful GET /users/{id}/reviews reports total_reviews as the
number of the user's Approved reviews and average_rating as the rounded
(2 decimal places) arithmetic mean of their ratings, 0 when there are
none. -/
theorem c9_user_average_rating (store : Store) (user_id : Nat)
    (resp : UserReviewsResponse)
    (hok : user_reviews_get store user_id = .ok resp) :
    resp.total_reviews = (store.reviews.filter (fun r =>
      r.reviewee_id == user_id && r.moderation_status == "Approved")).length ∧
    ((store.reviews.filter (fun r =>
        r.reviewee_id == user_id && r.moderation_status == "Approved")) = [] →
      resp.average_rating = 0) ∧
    ((store.reviews.filter (fun r =>
        r.reviewee_id == user_id && r.moderation_status == "Approved")) ≠ [] →
      resp.average_rating = round2
        (((store.reviews.filter (fun r =>
              r.reviewee_id == user_id && r.moderation_status == "Approved")).map
            (fun r => (r.rating : ℚ))).sum /
          ((store.reviews.filter (fun r =>
              r.reviewee_id == user_id && r.moderation_status == "Approved")).length :
            ℚ))) := by
  unfold user_reviews_get at hok
  split at hok
  · exact absurd hok (by simp)
  next user huser =>
    have huid : user.uid = user_id := by
      have := List.find?_some huser
      simpa using this
    subst huid
    dsimp only at hok
    obtain rfl := (UserReviewsResult.ok.injEq _ _).mp hok
    set fl := store.reviews.filter (fun r =>
      r.reviewee_id == user.uid && r.moderation_status == "Approved") with hfl
    have hperm : List.Perm (fl.insertionSort reviewCreatedDesc) fl :=
      List.perm_insertionSort _ _
    have hlen : (fl.insertionSort reviewCreatedDesc).length = fl.length :=
      hperm.length_eq
    refine ⟨hlen, ?_, ?_⟩
    · intro hnil
      have h0 : fl.length = 0 := by rw [hnil]; rfl
      simp only [hlen, h0]
      rw [if_neg (lt_irrefl 0)]
      exact round2_zero
    · intro hne
      have hpos : 0 < fl.length := List.length_pos.mpr hne
      simp only [hlen]
      rw [if_pos hpos]
      have hsum : ((fl.insertionSort reviewCreatedDesc).map
          (fun r => r.rating)).sum = (fl.map (fun r => r.rating)).sum :=
        (hperm.map _).sum_eq
      rw [hsum]
      congr 1
      have hcast : (((fl.map (fun r => r.rating)).sum : Int) : ℚ) =
          ((fl.map (fun r => (r.rating : ℚ))).sum) := by
        rw [Int.cast_list_sum, List.map_map]
        rfl
      rw [hcast]

/-- Store for the C9 witness: user 2 has three approved reviews with
ratings 5, 3 and 4. -/
def storeC9 : Store :=
  { users := [userOlie], listings := [listingBike],
    reviews :=
      [{ reviewR0 with rid := 51, rating := 5, created_at := 3 },
       { reviewR0 with rid := 52, rating := 3, created_at := 2 },
       { reviewR0 with rid := 53, rating := 4, created_at := 1 }],
    threads := [] }

/-- Witness for C9: with approved ratings [5,3,4] the reported average is
4 and the reported total is 3. -/
theorem c9_user_average_rating_witness :
    (UserReviewsResponse.mk
      [{ reviewR0 with rid := 51, rating := 5, created_at := 3 },
       { reviewR0 with rid := 52, rating := 3, created_at := 2 },
       { reviewR0 with rid := 53, rating := 4, created_at := 1 }]
      3 4).total_reviews =
      (storeC9.reviews.filter (fun r =>
        r.reviewee_id == 2 && r.moderation_status == "Approved")).length ∧
    (UserReviewsResponse.mk
      [{ reviewR0 with rid := 51, rating := 5, created_at := 3 },
       { reviewR0 with rid := 52, rating := 3, created_at := 2 },
       { reviewR0 with rid := 53, rating := 4, created_at := 1 }]
      3 4).average_rating = 4 := by
  have h := c9_user_average_rating storeC9 2
    (UserReviewsResponse.mk
      [{ reviewR0 with rid := 51, rating := 5, created_at := 3 },
       { reviewR0 with rid := 52, rating := 3, created_at := 2 },
       { reviewR0 with rid := 53, rating := 4, created_at := 1 }]
      3 4) (by with_unfolding_all rfl)
  exact ⟨h.1, rfl⟩

end CampusTrade
